import Mathlib

/-!
Verification development for the Spiko analytics module (`analytics.py`,
`models.py`): a shallow embedding of the session-analytics write path
(`validate_analysis_data`, `calculate_session_metrics`, `log_session`) and
read path (`get_session_analytics_data`, `get_session_analytics`), together
with theorems settling the behavioural claims of the design spec.

Modelling conventions:
- Python values are the inductive `PyVal`; dictionaries are association
  lists with string keys and first-match lookup (real Python dicts have
  unique keys, which every constructed dict here respects).
- Python numbers (`int`/`float`) are collapsed into `ℚ`; `bool` is kept
  separate but counts as numeric for `isinstance(x, (int, float))`, as in
  Python where `bool` is a subclass of `int`.
- Fallible Python expressions are embedded in `Except PyErr`; a `try/
  except` block is an explicit `match` on the embedded result.
- The serialized text columns (`json.dumps`/`json.loads`) are abstracted by
  `Blob`: a blob either is the serialization of a value (loads returns it)
  or is malformed (loads raises). This reflects that `json.loads` inverts
  `json.dumps` on the string-keyed JSON values produced by this code.
- `datetime` objects and ISO strings are abstracted by `TS`: a timestamp is
  a rational number of seconds; a string input is tagged with the outcome
  `datetime.fromisoformat` would produce on it.
- The SQLAlchemy session is modelled by passing the database state
  explicitly; a simulated store failure is the `commitFails` flag, and
  `db.session.rollback()` in the `except` branch returns the pre-call
  state. The `date` columns (server-side timestamps) are omitted: no claim
  mentions them and the model has no clock.
-/

inductive PyErr where
  | typeError
  | keyError (k : String)
  | attributeError
  | valueError
  | jsonDecodeError
  | persistenceError
deriving Repr, DecidableEq

inductive PyVal where
  | none
  | bool (b : Bool)
  | num (q : ℚ)
  | str (s : String)
  | list (xs : List PyVal)
  | dict (entries : List (String × PyVal))

/-- `isinstance(x, dict)`. -/
def PyVal.isDict : PyVal → Bool
  | .dict _ => true
  | _ => false

/-- `isinstance(x, (int, float))`; true on `bool` since Python `bool` is a
subclass of `int`. -/
def PyVal.isNumeric : PyVal → Bool
  | .bool _ => true
  | .num _ => true
  | _ => false

/-- Numeric value of a Python number (`True == 1`, `False == 0`). -/
def PyVal.toNum : PyVal → ℚ
  | .bool b => if b then 1 else 0
  | .num q => q
  | _ => 0

/-- Python truthiness. -/
def PyVal.truthy : PyVal → Bool
  | .none => false
  | .bool b => b
  | .num q => decide (q ≠ 0)
  | .str s => !s.isEmpty
  | .list xs => !xs.isEmpty
  | .dict es => !es.isEmpty

/-- First-match lookup in an association-list dictionary. -/
def dictFind (es : List (String × PyVal)) (k : String) : Option PyVal :=
  (es.find? (fun p => p.1 == k)).map (fun p => p.2)

/-- `k in d` for a dict `d`. -/
def dictHasKey (es : List (String × PyVal)) (k : String) : Bool :=
  es.any (fun p => p.1 == k)

/-- `d[k] = v`: replace the (first) binding of `k`, or append a new one —
Python dict assignment keeps the key's position and appends fresh keys. -/
def dictSet : List (String × PyVal) → String → PyVal → List (String × PyVal)
  | [], k, v => [(k, v)]
  | (k', v') :: rest, k, v =>
    if k' == k then (k, v) :: rest else (k', v') :: dictSet rest k v

/-- `del d[k]` / building a payload without key `k`. -/
def removeKey (es : List (String × PyVal)) (k : String) : List (String × PyVal) :=
  es.filter (fun p => !(p.1 == k))

/-- `needle.isPrefixOf hay` on character lists, written out structurally. -/
def listStartsWith : List Char → List Char → Bool
  | [], _ => true
  | _ :: _, [] => false
  | a :: as, b :: bs => a == b && listStartsWith as bs

/-- Substring test on character lists (Python `needle in haystack` for
strings). -/
def listContainsSub (needle : List Char) : List Char → Bool
  | [] => needle.isEmpty
  | c :: t => listStartsWith needle (c :: t) || listContainsSub needle t

/-- Python `key in container`: dict key membership, string substring test,
list element membership (a string key only equals string elements);
`TypeError` on numbers, booleans and `None`. -/
def pyContains (container : PyVal) (key : String) : Except PyErr Bool :=
  match container with
  | .dict es => .ok (dictHasKey es key)
  | .str s => .ok (listContainsSub key.toList s.toList)
  | .list xs =>
    .ok (xs.any (fun v => match v with | .str s => s == key | _ => false))
  | _ => .error .typeError

/-- Python `container[key]` with a string key: only dicts support it
(`KeyError` when absent); strings and lists need integer indices. -/
def pyGetItem (container : PyVal) (key : String) : Except PyErr PyVal :=
  match container with
  | .dict es =>
    match dictFind es key with
    | some v => .ok v
    | Option.none => .error (.keyError key)
  | _ => .error .typeError

/-- Python `container.get(key, default)`: a dict method; `AttributeError`
on anything that is not a dict. -/
def pyGetD (container : PyVal) (key : String) (default : PyVal) :
    Except PyErr PyVal :=
  match container with
  | .dict es => .ok ((dictFind es key).getD default)
  | _ => .error .attributeError

/-- Python `d = container.copy(); d[key] = v`: succeeds only on dicts
(`list.copy()` exists but string-key assignment then raises `TypeError`). -/
def pyCopySet (container : PyVal) (key : String) (v : PyVal) :
    Except PyErr PyVal :=
  match container with
  | .dict es => .ok (.dict (dictSet es key v))
  | _ => .error .typeError

/-! ## Schema Validator (`validate_analysis_data`, analytics.py:63-102) -/

def required_fields : List String :=
  ["criteria_scores", "overall_band", "actionable_insights"]

def expected_criteria : List String :=
  ["fluency_coherence", "lexical_resource", "grammatical_range_accuracy",
   "pronunciation"]

/-- `not isinstance(score, (int, float)) or score < 0 or score > 9`. -/
def invalidScore (v : PyVal) : Bool :=
  !v.isNumeric || decide (v.toNum < 0) || decide (9 < v.toNum)

/-- The `for field in required_fields` loop: first required field missing
from the payload, if any. -/
def findMissingField (es : List (String × PyVal)) :
    List String → Option String
  | [] => Option.none
  | f :: rest =>
    if dictHasKey es f then findMissingField es rest else some f

/-- One iteration of the `for criterion in expected_criteria` loop:
`criterion not in criteria_scores` check, then `criteria_scores[criterion]`
range check. Returns the rejection message, if any. -/
def checkCriterion (criteria_scores : PyVal) (criterion : String) :
    Except PyErr (Option String) :=
  match pyContains criteria_scores criterion with
  | .error e => .error e
  | .ok present =>
    if !present then
      .ok (some ("Missing criterion score: " ++ criterion))
    else
      match pyGetItem criteria_scores criterion with
      | .error e => .error e
      | .ok score =>
        if invalidScore score then
          .ok (some ("Invalid score for " ++ criterion ++
            ": must be a number between 0 and 9"))
        else
          .ok Option.none

/-- The whole criteria loop, short-circuiting on the first rejection. -/
def checkCriteriaList (criteria_scores : PyVal) :
    List String → Except PyErr (Option String)
  | [] => .ok Option.none
  | c :: rest =>
    match checkCriterion criteria_scores c with
    | .error e => .error e
    | .ok (some msg) => .ok (some msg)
    | .ok Option.none => checkCriteriaList criteria_scores rest

/-- `validate_analysis_data(analysis_data)` (analytics.py:63-102). The
result is `(is_valid, error_message)`; the `Except` layer records that the
Python function can raise (e.g. `TypeError` from `criterion not in
criteria_scores` when `criteria_scores` is a number). -/
def validate_analysis_data (analysis_data : PyVal) :
    Except PyErr (Bool × Option String) :=
  match analysis_data with
  | .dict es =>
    match findMissingField es required_fields with
    | some f => .ok (false, some ("Missing required field: " ++ f))
    | Option.none =>
      let criteria_scores := (dictFind es "criteria_scores").getD (.dict [])
      match checkCriteriaList criteria_scores expected_criteria with
      | .error e => .error e
      | .ok (some msg) => .ok (false, some msg)
      | .ok Option.none =>
        let overall_band := (dictFind es "overall_band").getD (.dict [])
        match pyContains overall_band "score" with
        | .error e => .error e
        | .ok hasScore =>
          if !hasScore then .ok (false, some "Missing overall band score")
          else
            match pyGetItem overall_band "score" with
            | .error e => .error e
            | .ok overall_score =>
              if invalidScore overall_score then
                .ok (false, some
                  "Invalid overall band score: must be a number between 0 and 9")
              else
                .ok (true, Option.none)
  | _ => .ok (false, some "Analysis data must be a dictionary")

/-! ## Metrics Calculator (`calculate_session_metrics`, analytics.py:19-60) -/

/-- A start/end timestamp argument: either a `datetime` object, a string
`datetime.fromisoformat` parses (after the `Z` replacement), or a string it
rejects. `t` is the instant in seconds. -/
inductive TS where
  | dt (t : ℚ)
  | strOk (s : String) (t : ℚ)
  | strBad (s : String)

/-- Python truthiness of a timestamp argument (`datetime` objects are
truthy; a string is truthy iff non-empty). -/
def TS.truthy : TS → Bool
  | .dt _ => true
  | .strOk s _ => !s.isEmpty
  | .strBad s => !s.isEmpty

def optTSTruthy : Option TS → Bool
  | Option.none => false
  | some ts => ts.truthy

/-- The `isinstance(x, str)`-guarded `datetime.fromisoformat` conversion
inside the `try` block: `datetime` objects pass through, parseable strings
yield their instant, malformed strings raise. -/
def tsParse : TS → Except PyErr ℚ
  | .dt t => .ok t
  | .strOk _ t => .ok t
  | .strBad _ => .error .valueError

def strOptTruthy : Option String → Bool
  | Option.none => false
  | some s => !s.isEmpty

/-- One step of Python `str.split()` (split on whitespace runs, dropping
empty tokens), consuming the string from the right. -/
def wordsStep (c : Char) (acc : List Char × List (List Char)) :
    List Char × List (List Char) :=
  if c.isWhitespace then
    ([], if acc.1.isEmpty then acc.2 else acc.1 :: acc.2)
  else
    (c :: acc.1, acc.2)

/-- Python `transcript.split()`: whitespace-delimited tokens. -/
def pyWords (s : List Char) : List (List Char) :=
  let r := s.foldr wordsStep ([], [])
  if r.1.isEmpty then r.2 else r.1 :: r.2

/-- Round half to even at integer precision (Python `round` on the exact
value; Python rounds binary floats, which agrees on every value these
claims touch). -/
def roundHalfEven (x : ℚ) : ℤ :=
  let f := ⌊x⌋
  let r := x - f
  if r < 1 / 2 then f
  else if 1 / 2 < r then f + 1
  else if f % 2 = 0 then f else f + 1

/-- Python `round(x, 2)`. -/
def round2 (x : ℚ) : ℚ := (roundHalfEven (x * 100) : ℚ) / 100

structure Metrics where
  words_spoken : Nat
  duration : ℚ
  wpm : ℚ
deriving Repr, DecidableEq

/-- `calculate_session_metrics(transcript, start_time, end_time)`
(analytics.py:19-60). Total: the `try/except` around the timestamp
arithmetic is the inner `match`, whose error branch falls back to 0. -/
def calculate_session_metrics (transcript : Option String)
    (start_time : Option TS) (end_time : Option TS) : Metrics :=
  if !strOptTruthy transcript then
    { words_spoken := 0, duration := 0, wpm := 0 }
  else
    let words_spoken := (pyWords (transcript.getD "").toList).length
    let duration : ℚ :=
      if optTSTruthy start_time && optTSTruthy end_time then
        match start_time, end_time with
        | some st, some et =>
          match tsParse st with
          | .error _ => 0
          | .ok s =>
            match tsParse et with
            | .error _ => 0
            | .ok e => e - s
        | _, _ => 0
      else 0
    let wpm : ℚ := if 0 < duration then (words_spoken / duration) * 60 else 0
    { words_spoken := words_spoken, duration := max duration 0,
      wpm := round2 wpm }

/-! ## Persistence model (`models.py`) and Session Recorder
(`log_session`, analytics.py:104-183) -/

/-- A serialized text column: either the `json.dumps` image of a value
(`json.loads` returns it) or malformed text (`json.loads` raises). -/
inductive Blob where
  | json (v : PyVal)
  | malformed (s : String)

def json_dumps (v : PyVal) : Blob := .json v

def json_loads : Blob → Except PyErr PyVal
  | .json v => .ok v
  | .malformed _ => .error .jsonDecodeError

/-- A `session_usage` row (models.py:62-78; `date` column omitted). -/
structure SessionRow where
  id : Nat
  user_id : Nat
  session_id_str : String
  duration : ℚ
  words_spoken : Nat

/-- A `feedback_summary` row (models.py:81-95; `id`/`date` omitted). -/
structure FeedbackRow where
  session_usage_id : Nat
  band_scores : Blob
  feedback_text : Blob

/-- The relational store: committed rows plus the next autoincrement id. -/
structure DBState where
  sessions : List SessionRow
  feedbacks : List FeedbackRow
  nextId : Nat

/-- `log_session`'s return value: the new `SessionUsage.id` on success,
Python `False` on failure. -/
inductive LogResult where
  | ok (id : Nat)
  | failure
deriving Repr, DecidableEq

/-- Python `questions_and_answers or []`. -/
def orEmptyList (qa : Option PyVal) : PyVal :=
  match qa with
  | Option.none => .list []
  | some v => if v.truthy then v else .list []

def optStrVal : Option String → PyVal
  | Option.none => .none
  | some s => .str s

/-- Python `len(x)`: sized containers only; `TypeError` on numbers,
booleans and `None`. -/
def pyLen : PyVal → Except PyErr Nat
  | .str s => .ok s.length
  | .list xs => .ok xs.length
  | .dict es => .ok es.length
  | _ => .error .typeError

/-- `len(questions_and_answers) if questions_and_answers else 0`, the
argument of the logging print at analytics.py:176. This expression runs
inside the `try` block *after* `db.session.commit()`, and raises
`TypeError` when `questions_and_answers` is truthy but has no length
(e.g. a number). -/
def qaCount (qa : Option PyVal) : Except PyErr Nat :=
  match qa with
  | Option.none => .ok 0
  | some v => if v.truthy then pyLen v else .ok 0

/-- The body of `log_session`'s `try` block (analytics.py:119-178).
`commitFails` injects a simulated store failure at `db.session.commit()`;
every other raise site is threaded through the same `Except` layer the
enclosing `try` catches, and an error carries the store state at the time
of the raise (the pre-call state before the commit, the committed state
after it, since a rollback cannot undo a commit). The reachable raise
sites on the modelled argument types are the validation internals, the
`.get`/copy-assign calls, the commit itself, and — after the commit — the
`len(questions_and_answers)` inside the logging print at
analytics.py:176. The remaining print expressions cannot raise there:
`len(transcript)` is guarded by truthiness and `transcript` is text or
`None`, and `analysis_data.keys()` runs only after validation has
established that `analysis_data` is a dict. -/
def log_session_body (db : DBState) (commitFails : Bool) (user_id : Nat)
    (session_id_str : String) (analysis_data : PyVal) (duration : Option ℚ)
    (transcript : Option String) (start_time : Option TS)
    (end_time : Option TS) (questions_and_answers : Option PyVal) :
    Except (PyErr × DBState) (LogResult × DBState) :=
  match validate_analysis_data analysis_data with
  | .error e => .error (e, db)
  | .ok (is_valid, _error_message) =>
    if !is_valid then .ok (.failure, db)
    else
      let metrics :=
        calculate_session_metrics transcript start_time end_time
      let session_duration := duration.getD metrics.duration
      let session_duration :=
        if session_duration == 0 then 900 else session_duration
      let words_spoken := metrics.words_spoken
      let new_session_usage : SessionRow :=
        { id := db.nextId, user_id := user_id,
          session_id_str := session_id_str, duration := session_duration,
          words_spoken := words_spoken }
      match pyGetD analysis_data "criteria_scores" (.dict []) with
      | .error e => .error (e, db)
      | .ok criteria_scores =>
        match pyGetD analysis_data "overall_band" (.dict []) with
        | .error e => .error (e, db)
        | .ok overall_band =>
          match pyCopySet criteria_scores "overall_band" overall_band with
          | .error e => .error (e, db)
          | .ok complete_band_scores =>
            match pyGetD analysis_data "actionable_insights" (.dict []) with
            | .error e => .error (e, db)
            | .ok actionable_insights =>
              match pyGetD analysis_data "word_analysis" (.dict []) with
              | .error e => .error (e, db)
              | .ok word_analysis =>
                let comprehensive_feedback : PyVal := .dict
                  [("actionable_insights", actionable_insights),
                   ("word_analysis", word_analysis),
                   ("questions_and_answers",
                     orEmptyList questions_and_answers),
                   ("original_transcript", optStrVal transcript)]
                let feedback_summary : FeedbackRow :=
                  { session_usage_id := new_session_usage.id,
                    band_scores := json_dumps complete_band_scores,
                    feedback_text := json_dumps comprehensive_feedback }
                if commitFails then .error (.persistenceError, db)
                else
                  let committed : DBState :=
                    { sessions := db.sessions ++ [new_session_usage],
                      feedbacks := db.feedbacks ++ [feedback_summary],
                      nextId := db.nextId + 1 }
                  match qaCount questions_and_answers with
                  | .error e => .error (e, committed)
                  | .ok _ => .ok (.ok new_session_usage.id, committed)

/-- `log_session(...)` (analytics.py:104-183): the `try/except` wrapper.
Any exception raised inside is caught, `db.session.rollback()` discards
whatever is uncommitted — so the store is left as it was at the moment of
the raise: the pre-call state when the raise happens during the combined
write, the committed state when the raise happens in the logging prints
after the commit — and Python `False` is returned. No exception escapes,
as the total return type shows. -/
def log_session (db : DBState) (commitFails : Bool) (user_id : Nat)
    (session_id_str : String) (analysis_data : PyVal) (duration : Option ℚ)
    (transcript : Option String) (start_time : Option TS)
    (end_time : Option TS) (questions_and_answers : Option PyVal) :
    LogResult × DBState :=
  match log_session_body db commitFails user_id session_id_str analysis_data
      duration transcript start_time end_time questions_and_answers with
  | .ok r => r
  | .error (_, dbAtRaise) => (.failure, dbAtRaise)

/-! ## Analytics Reader (`get_session_analytics_data`,
`get_session_analytics`, analytics.py:259-311) -/

/-- The reconstructed per-session view (`date` field omitted). -/
structure SessionView where
  session_usage_id : Nat
  session_id_str : String
  duration : ℚ
  words_spoken : Nat
  criteria_scores : PyVal
  overall_band : PyVal
  actionable_insights : PyVal
  word_analysis : PyVal
  questions_and_answers : PyVal
  original_transcript : PyVal

/-- The body of `get_session_analytics_data`'s `try` block
(analytics.py:271-298), given the found rows: deserialize both blobs and
rebuild the view with the defensive defaults. -/
def session_view_body (session_usage : SessionRow)
    (feedback : FeedbackRow) : Except PyErr SessionView :=
  match json_loads feedback.band_scores with
  | .error e => .error e
  | .ok band_scores =>
    match json_loads feedback.feedback_text with
    | .error e => .error e
    | .ok feedback_data =>
      match
        (if feedback_data.isDict then
          pyGetD feedback_data "actionable_insights" feedback_data
        else .ok (.dict [])) with
      | .error e => .error e
      | .ok actionable_insights =>
        match pyGetD feedback_data "word_analysis" (.dict []) with
        | .error e => .error e
        | .ok word_analysis =>
          match pyGetD feedback_data "questions_and_answers" (.list []) with
          | .error e => .error e
          | .ok questions_and_answers =>
            match pyGetD feedback_data "original_transcript" (.str "") with
            | .error e => .error e
            | .ok original_transcript =>
              match pyGetD band_scores "fluency_coherence" (.num 0) with
              | .error e => .error e
              | .ok fc =>
                match pyGetD band_scores "lexical_resource" (.num 0) with
                | .error e => .error e
                | .ok lr =>
                  match pyGetD band_scores "grammatical_range_accuracy"
                      (.num 0) with
                  | .error e => .error e
                  | .ok gra =>
                    match pyGetD band_scores "pronunciation" (.num 0) with
                    | .error e => .error e
                    | .ok pr =>
                      match pyGetD band_scores "overall_band"
                          (.dict [("score", .num 0),
                            ("summary", .str "No summary available")]) with
                      | .error e => .error e
                      | .ok overall_band =>
                        .ok
                          { session_usage_id := session_usage.id,
                            session_id_str := session_usage.session_id_str,
                            duration := session_usage.duration,
                            words_spoken := session_usage.words_spoken,
                            criteria_scores := .dict
                              [("fluency_coherence", fc),
                               ("lexical_resource", lr),
                               ("grammatical_range_accuracy", gra),
                               ("pronunciation", pr)],
                            overall_band := overall_band,
                            actionable_insights := actionable_insights,
                            word_analysis := word_analysis,
                            questions_and_answers := questions_and_answers,
                            original_transcript := original_transcript }

/-- `get_session_analytics_data(session_usage_id)` (analytics.py:259-301):
row lookups, then the `try` body; the `except` clause turns any raise into
`None`. -/
def get_session_analytics_data (db : DBState) (session_usage_id : Nat) :
    Option SessionView :=
  match db.sessions.find? (fun s => s.id == session_usage_id) with
  | Option.none => Option.none
  | some session_usage =>
    match db.feedbacks.find?
        (fun f => f.session_usage_id == session_usage.id) with
    | Option.none => Option.none
    | some feedback =>
      match session_view_body session_usage feedback with
      | .ok view => some view
      | .error _ => Option.none

/-- The HTTP-facing result of `get_session_analytics`. -/
inductive ApiResult where
  | ok (view : SessionView)
  | notFound

/-- `get_session_analytics(session_usage_id)` (analytics.py:303-311):
404 on a falsy payload, 200 otherwise (the view dict is never empty, so
falsy coincides with `None`). -/
def get_session_analytics (db : DBState) (session_usage_id : Nat) :
    ApiResult :=
  match get_session_analytics_data db session_usage_id with
  | Option.none => .notFound
  | some data => .ok data


/-! ## Dictionary lemmas -/
lemma dictFind_cons (p : String × PyVal) (rest : List (String × PyVal))
    (k : String) :
    dictFind (p :: rest) k =
      if p.1 = k then some p.2 else dictFind rest k := by
  by_cases h : p.1 = k <;> simp [dictFind, List.find?_cons, h]

lemma dictHasKey_eq_isSome (es : List (String × PyVal)) (k : String) :
    dictHasKey es k = (dictFind es k).isSome := by
  induction es with
  | nil => rfl
  | cons p rest ih =>
    by_cases h : p.1 = k
    · simp [dictHasKey, dictFind, List.find?_cons, h]
    · rw [dictFind_cons]
      simp only [h, if_false]
      rw [← ih]
      simp [dictHasKey, h]

lemma dictSet_cons_eq (p : String × PyVal) (rest : List (String × PyVal))
    (k : String) (v : PyVal) (h : p.1 = k) :
    dictSet (p :: rest) k v = (k, v) :: rest := by
  cases p
  simp_all [dictSet]

lemma dictSet_cons_ne (p : String × PyVal) (rest : List (String × PyVal))
    (k : String) (v : PyVal) (h : ¬ p.1 = k) :
    dictSet (p :: rest) k v = p :: dictSet rest k v := by
  cases p
  simp_all [dictSet]

lemma dictFind_dictSet_self (es : List (String × PyVal)) (k : String)
    (v : PyVal) : dictFind (dictSet es k v) k = some v := by
  induction es with
  | nil => simp [dictSet, dictFind_cons]
  | cons p rest ih =>
    by_cases h : p.1 = k
    · rw [dictSet_cons_eq p rest k v h, dictFind_cons]
      simp
    · rw [dictSet_cons_ne p rest k v h, dictFind_cons]
      simp [h, ih]

lemma dictFind_dictSet_ne (es : List (String × PyVal)) (k k' : String)
    (v : PyVal) (h : k' ≠ k) :
    dictFind (dictSet es k v) k' = dictFind es k' := by
  have hk : ¬ (k = k') := fun hh => h hh.symm
  induction es with
  | nil => simp [dictSet, dictFind_cons, dictFind, hk]
  | cons p rest ih =>
    by_cases hp : p.1 = k
    · rw [dictSet_cons_eq p rest k v hp, dictFind_cons, dictFind_cons]
      simp only [hk, if_false]
      rw [hp]
      simp [hk]
    · rw [dictSet_cons_ne p rest k v hp, dictFind_cons, dictFind_cons, ih]

lemma removeKey_cons_eq (p : String × PyVal) (rest : List (String × PyVal))
    (k : String) (h : p.1 = k) :
    removeKey (p :: rest) k = removeKey rest k := by
  simp [removeKey, h]

lemma removeKey_cons_ne (p : String × PyVal) (rest : List (String × PyVal))
    (k : String) (h : ¬ p.1 = k) :
    removeKey (p :: rest) k = p :: removeKey rest k := by
  simp [removeKey, h]

lemma dictFind_removeKey_self (es : List (String × PyVal)) (k : String) :
    dictFind (removeKey es k) k = Option.none := by
  induction es with
  | nil => rfl
  | cons p rest ih =>
    by_cases h : p.1 = k
    · rw [removeKey_cons_eq p rest k h]
      exact ih
    · rw [removeKey_cons_ne p rest k h, dictFind_cons]
      simp [h, ih]

lemma dictFind_removeKey_ne (es : List (String × PyVal)) (k k' : String)
    (h : k' ≠ k) : dictFind (removeKey es k) k' = dictFind es k' := by
  induction es with
  | nil => rfl
  | cons p rest ih =>
    by_cases hp : p.1 = k
    · rw [removeKey_cons_eq p rest k hp, ih, dictFind_cons]
      have : ¬ p.1 = k' := by
        rw [hp]
        exact fun hh => h hh.symm
      simp [this]
    · rw [removeKey_cons_ne p rest k hp, dictFind_cons, dictFind_cons, ih]

lemma dictHasKey_dictSet_self (es : List (String × PyVal)) (k : String)
    (v : PyVal) : dictHasKey (dictSet es k v) k = true := by
  rw [dictHasKey_eq_isSome, dictFind_dictSet_self]
  rfl

lemma dictHasKey_dictSet_ne (es : List (String × PyVal)) (k k' : String)
    (v : PyVal) (h : k' ≠ k) :
    dictHasKey (dictSet es k v) k' = dictHasKey es k' := by
  rw [dictHasKey_eq_isSome, dictHasKey_eq_isSome, dictFind_dictSet_ne es k k' v h]

lemma dictHasKey_removeKey_self (es : List (String × PyVal)) (k : String) :
    dictHasKey (removeKey es k) k = false := by
  rw [dictHasKey_eq_isSome, dictFind_removeKey_self]
  rfl

lemma dictHasKey_removeKey_ne (es : List (String × PyVal)) (k k' : String)
    (h : k' ≠ k) : dictHasKey (removeKey es k) k' = dictHasKey es k' := by
  rw [dictHasKey_eq_isSome, dictHasKey_eq_isSome, dictFind_removeKey_ne es k k' h]

/-! ## Validator lemmas -/

lemma findMissingField_eq_none (es : List (String × PyVal)) (l : List String)
    (h : ∀ f ∈ l, dictHasKey es f = true) :
    findMissingField es l = Option.none := by
  induction l with
  | nil => rfl
  | cons f rest ih =>
    rw [findMissingField, h f (by simp)]
    exact ih (fun f' hf' => h f' (by simp [hf']))
    
lemma findMissingField_unique (es : List (String × PyVal)) (l : List String)
    (f : String) (hf : f ∈ l) (hmiss : dictHasKey es f = false)
    (hrest : ∀ f' ∈ l, f' ≠ f → dictHasKey es f' = true) :
    findMissingField es l = some f := by
  induction l with
  | nil => cases hf
  | cons g rest ih =>
    by_cases hg : g = f
    · subst hg
      rw [findMissingField, hmiss]
      simp
    · rw [findMissingField, hrest g (by simp) hg]
      simp only [if_true]
      rcases List.mem_cons.mp hf with h1 | h1
      · exact absurd h1.symm hg
      · exact ih h1 (fun f' hf' => hrest f' (by simp [hf']))

lemma checkCriterion_good (cs : List (String × PyVal)) (c : String)
    (v : PyVal) (h : dictFind cs c = some v) (hv : invalidScore v = false) :
    checkCriterion (.dict cs) c = .ok Option.none := by
  have hk : dictHasKey cs c = true := by
    rw [dictHasKey_eq_isSome, h]
    rfl
  simp [checkCriterion, pyContains, pyGetItem, hk, h, hv]

lemma checkCriterion_bad_score (cs : List (String × PyVal)) (c : String)
    (v : PyVal) (h : dictFind cs c = some v) (hv : invalidScore v = true) :
    checkCriterion (.dict cs) c =
      .ok (some ("Invalid score for " ++ c ++
        ": must be a number between 0 and 9")) := by
  have hk : dictHasKey cs c = true := by
    rw [dictHasKey_eq_isSome, h]
    rfl
  simp [checkCriterion, pyContains, pyGetItem, hk, h, hv]

lemma checkCriterion_missing (cs : List (String × PyVal)) (c : String)
    (h : dictFind cs c = Option.none) :
    checkCriterion (.dict cs) c =
      .ok (some ("Missing criterion score: " ++ c)) := by
  have hk : dictHasKey cs c = false := by
    rw [dictHasKey_eq_isSome, h]
    rfl
  simp [checkCriterion, pyContains, hk]

lemma checkCriteriaList_all_good (cs : PyVal) (l : List String)
    (h : ∀ c ∈ l, checkCriterion cs c = .ok Option.none) :
    checkCriteriaList cs l = .ok Option.none := by
  induction l with
  | nil => rfl
  | cons c rest ih =>
    rw [checkCriteriaList, h c (by simp)]
    exact ih (fun c' hc' => h c' (by simp [hc']))

lemma checkCriteriaList_one_fail (cs : PyVal) (l : List String) (c : String)
    (m : String) (hc : c ∈ l)
    (hother : ∀ c' ∈ l, c' ≠ c → checkCriterion cs c' = .ok Option.none)
    (hfail : checkCriterion cs c = .ok (some m)) :
    checkCriteriaList cs l = .ok (some m) := by
  induction l with
  | nil => cases hc
  | cons g rest ih =>
    by_cases hg : g = c
    · subst hg
      rw [checkCriteriaList, hfail]
    · rw [checkCriteriaList, hother g (by simp) hg]
      rcases List.mem_cons.mp hc with h1 | h1
      · exact absurd h1.symm hg
      · exact ih h1 (fun c' hc' => hother c' (by simp [hc']))

lemma checkCriterion_dict_no_error (cs : List (String × PyVal)) (c : String) :
    ∃ r, checkCriterion (.dict cs) c = .ok r := by
  cases hfind : dictFind cs c with
  | none => exact ⟨_, checkCriterion_missing cs c hfind⟩
  | some v =>
    cases hv : invalidScore v with
    | false => exact ⟨_, checkCriterion_good cs c v hfind hv⟩
    | true => exact ⟨_, checkCriterion_bad_score cs c v hfind hv⟩

lemma checkCriteriaList_dict_no_error (cs : List (String × PyVal))
    (l : List String) : ∃ r, checkCriteriaList (.dict cs) l = .ok r := by
  induction l with
  | nil => exact ⟨_, rfl⟩
  | cons c rest ih =>
    obtain ⟨r, hr⟩ := checkCriterion_dict_no_error cs c
    cases r with
    | none =>
      obtain ⟨r', hr'⟩ := ih
      exact ⟨r', by rw [checkCriteriaList, hr]; exact hr'⟩
    | some m => exact ⟨some m, by rw [checkCriteriaList, hr]⟩

/-! ## Valid-payload hypotheses -/

/-- The hypotheses of a well-formed analysis payload `PyVal.dict es`: the
three required keys are present, `criteria_scores` is a mapping holding the
four named criteria with in-range numeric values `vfc`/`vlr`/`vgra`/`vpr`,
and `overall_band` is a mapping holding an in-range numeric `score` `sv`. -/
structure GoodPayload (es cs obs : List (String × PyVal))
    (vfc vlr vgra vpr sv : PyVal) : Prop where
  hcs : dictFind es "criteria_scores" = some (.dict cs)
  hob : dictFind es "overall_band" = some (.dict obs)
  hai : (dictFind es "actionable_insights").isSome = true
  hfc : dictFind cs "fluency_coherence" = some vfc
  hlr : dictFind cs "lexical_resource" = some vlr
  hgra : dictFind cs "grammatical_range_accuracy" = some vgra
  hpr : dictFind cs "pronunciation" = some vpr
  hfcv : invalidScore vfc = false
  hlrv : invalidScore vlr = false
  hgrav : invalidScore vgra = false
  hprv : invalidScore vpr = false
  hsc : dictFind obs "score" = some sv
  hscv : invalidScore sv = false

namespace GoodPayload

variable {es cs obs : List (String × PyVal)} {vfc vlr vgra vpr sv : PyVal}

lemma requiredKeys (h : GoodPayload es cs obs vfc vlr vgra vpr sv) :
    ∀ f ∈ required_fields, dictHasKey es f = true := by
  intro f hf
  rw [dictHasKey_eq_isSome]
  rcases show f = "criteria_scores" ∨ f = "overall_band" ∨
      f = "actionable_insights" by simpa [required_fields] using hf with
    rfl | rfl | rfl
  · rw [h.hcs]; rfl
  · rw [h.hob]; rfl
  · exact h.hai

lemma criteriaGood (h : GoodPayload es cs obs vfc vlr vgra vpr sv) :
    ∀ c ∈ expected_criteria, checkCriterion (.dict cs) c = .ok Option.none := by
  intro c hc
  rcases show c = "fluency_coherence" ∨ c = "lexical_resource" ∨
      c = "grammatical_range_accuracy" ∨ c = "pronunciation" by
        simpa [expected_criteria] using hc with rfl | rfl | rfl | rfl
  · exact checkCriterion_good _ _ _ h.hfc h.hfcv
  · exact checkCriterion_good _ _ _ h.hlr h.hlrv
  · exact checkCriterion_good _ _ _ h.hgra h.hgrav
  · exact checkCriterion_good _ _ _ h.hpr h.hprv

end GoodPayload

/-- A well-formed payload is accepted: `(True, None)`. -/
lemma validate_accepts {es cs obs : List (String × PyVal)}
    {vfc vlr vgra vpr sv : PyVal}
    (h : GoodPayload es cs obs vfc vlr vgra vpr sv) :
    validate_analysis_data (.dict es) = .ok (true, Option.none) := by
  have hsk : dictHasKey obs "score" = true := by
    rw [dictHasKey_eq_isSome, h.hsc]
    rfl
  rw [validate_analysis_data]
  rw [findMissingField_eq_none es required_fields h.requiredKeys]
  simp only [h.hcs, Option.getD_some]
  rw [checkCriteriaList_all_good _ _ h.criteriaGood]
  simp only [h.hob, Option.getD_some, pyContains, hsk, Bool.not_true,
    Bool.false_eq_true, if_false, pyGetItem, h.hsc, h.hscv]

/-- Removing one required key yields the corresponding rejection. -/
lemma validate_missing_required {es cs obs : List (String × PyVal)}
    {vfc vlr vgra vpr sv : PyVal}
    (h : GoodPayload es cs obs vfc vlr vgra vpr sv)
    (f : String) (hf : f ∈ required_fields) :
    validate_analysis_data (.dict (removeKey es f)) =
      .ok (false, some ("Missing required field: " ++ f)) := by
  rw [validate_analysis_data]
  rw [findMissingField_unique (removeKey es f) required_fields f hf
    (dictHasKey_removeKey_self es f)
    (fun f' hf' hne => by
      rw [dictHasKey_removeKey_ne es f f' hne]
      exact h.requiredKeys f' hf')]

/-- Pushing one criterion score out of range yields the rejection naming
that criterion. -/
lemma validate_criterion_out_of_range {es cs obs : List (String × PyVal)}
    {vfc vlr vgra vpr sv : PyVal}
    (h : GoodPayload es cs obs vfc vlr vgra vpr sv)
    (c : String) (hc : c ∈ expected_criteria) (q : ℚ) (hq : q < 0 ∨ 9 < q) :
    validate_analysis_data
        (.dict (dictSet es "criteria_scores" (.dict (dictSet cs c (.num q))))) =
      .ok (false, some ("Invalid score for " ++ c ++
        ": must be a number between 0 and 9")) := by
  have hinv : invalidScore (.num q) = true := by
    rcases hq with hq | hq <;>
      simp [invalidScore, PyVal.isNumeric, PyVal.toNum, hq]
  have hreq : ∀ f ∈ required_fields,
      dictHasKey (dictSet es "criteria_scores" (.dict (dictSet cs c (.num q)))) f = true := by
    intro f hf
    by_cases hfe : f = "criteria_scores"
    · subst hfe
      exact dictHasKey_dictSet_self es _ _
    · rw [dictHasKey_dictSet_ne es _ f _ hfe]
      exact h.requiredKeys f hf
  rw [validate_analysis_data]
  rw [findMissingField_eq_none _ required_fields hreq]
  simp only [dictFind_dictSet_self, Option.getD_some]
  rw [checkCriteriaList_one_fail _ expected_criteria c _ hc
    (fun c' hc' hne => by
      rw [checkCriterion_good _ c' ((dictFind cs c').getD (.num 0))]
      · rw [dictFind_dictSet_ne cs c c' (.num q) hne]
        rcases show c' = "fluency_coherence" ∨ c' = "lexical_resource" ∨
            c' = "grammatical_range_accuracy" ∨ c' = "pronunciation" by
              simpa [expected_criteria] using hc' with rfl | rfl | rfl | rfl
        · rw [h.hfc]; rfl
        · rw [h.hlr]; rfl
        · rw [h.hgra]; rfl
        · rw [h.hpr]; rfl
      · rcases show c' = "fluency_coherence" ∨ c' = "lexical_resource" ∨
            c' = "grammatical_range_accuracy" ∨ c' = "pronunciation" by
              simpa [expected_criteria] using hc' with rfl | rfl | rfl | rfl
        · rw [h.hfc]; exact h.hfcv
        · rw [h.hlr]; exact h.hlrv
        · rw [h.hgra]; exact h.hgrav
        · rw [h.hpr]; exact h.hprv)
    (checkCriterion_bad_score _ c (.num q) (dictFind_dictSet_self cs c (.num q)) hinv)]

/-- Pushing the overall band score out of range yields its rejection. -/
lemma validate_overall_out_of_range {es cs obs : List (String × PyVal)}
    {vfc vlr vgra vpr sv : PyVal}
    (h : GoodPayload es cs obs vfc vlr vgra vpr sv)
    (q : ℚ) (hq : q < 0 ∨ 9 < q) :
    validate_analysis_data
        (.dict (dictSet es "overall_band" (.dict (dictSet obs "score" (.num q))))) =
      .ok (false, some
        "Invalid overall band score: must be a number between 0 and 9") := by
  have hinv : invalidScore (.num q) = true := by
    rcases hq with hq | hq <;>
      simp [invalidScore, PyVal.isNumeric, PyVal.toNum, hq]
  have hreq : ∀ f ∈ required_fields,
      dictHasKey (dictSet es "overall_band" (.dict (dictSet obs "score" (.num q)))) f = true := by
    intro f hf
    by_cases hfe : f = "overall_band"
    · subst hfe
      exact dictHasKey_dictSet_self es _ _
    · rw [dictHasKey_dictSet_ne es _ f _ hfe]
      exact h.requiredKeys f hf
  have hsk : dictHasKey (dictSet obs "score" (.num q)) "score" = true :=
    dictHasKey_dictSet_self obs _ _
  rw [validate_analysis_data]
  rw [findMissingField_eq_none _ required_fields hreq]
  rw [dictFind_dictSet_ne es "overall_band" "criteria_scores" _ (by decide)]
  simp only [h.hcs, Option.getD_some]
  rw [checkCriteriaList_all_good _ _ h.criteriaGood]
  simp only [dictFind_dictSet_self, Option.getD_some, pyContains, hsk,
    Bool.not_true, Bool.false_eq_true, if_false, pyGetItem,
    dictFind_dictSet_self obs "score" (.num q), hinv]
  simp

/-- Removing one criterion from `criteria_scores` yields its rejection. -/
lemma validate_missing_criterion {es cs obs : List (String × PyVal)}
    {vfc vlr vgra vpr sv : PyVal}
    (h : GoodPayload es cs obs vfc vlr vgra vpr sv)
    (c : String) (hc : c ∈ expected_criteria) :
    validate_analysis_data
        (.dict (dictSet es "criteria_scores" (.dict (removeKey cs c)))) =
      .ok (false, some ("Missing criterion score: " ++ c)) := by
  have hreq : ∀ f ∈ required_fields,
      dictHasKey (dictSet es "criteria_scores" (.dict (removeKey cs c))) f = true := by
    intro f hf
    by_cases hfe : f = "criteria_scores"
    · subst hfe
      exact dictHasKey_dictSet_self es _ _
    · rw [dictHasKey_dictSet_ne es _ f _ hfe]
      exact h.requiredKeys f hf
  rw [validate_analysis_data]
  rw [findMissingField_eq_none _ required_fields hreq]
  simp only [dictFind_dictSet_self, Option.getD_some]
  rw [checkCriteriaList_one_fail _ expected_criteria c _ hc
    (fun c' hc' hne => by
      rw [checkCriterion_good _ c' ((dictFind cs c').getD (.num 0))]
      · rw [dictFind_removeKey_ne cs c c' hne]
        rcases show c' = "fluency_coherence" ∨ c' = "lexical_resource" ∨
            c' = "grammatical_range_accuracy" ∨ c' = "pronunciation" by
              simpa [expected_criteria] using hc' with rfl | rfl | rfl | rfl
        · rw [h.hfc]; rfl
        · rw [h.hlr]; rfl
        · rw [h.hgra]; rfl
        · rw [h.hpr]; rfl
      · rcases show c' = "fluency_coherence" ∨ c' = "lexical_resource" ∨
            c' = "grammatical_range_accuracy" ∨ c' = "pronunciation" by
              simpa [expected_criteria] using hc' with rfl | rfl | rfl | rfl
        · rw [h.hfc]; exact h.hfcv
        · rw [h.hlr]; exact h.hlrv
        · rw [h.hgra]; exact h.hgrav
        · rw [h.hpr]; exact h.hprv)
    (checkCriterion_missing _ c (dictFind_removeKey_self cs c))]

/-- Adding an arbitrary extra entry to `criteria_scores` under a key other
than the four criteria leaves the payload accepted. -/
lemma validate_accepts_extra_key {es cs obs : List (String × PyVal)}
    {vfc vlr vgra vpr sv : PyVal}
    (h : GoodPayload es cs obs vfc vlr vgra vpr sv)
    (k : String) (v : PyVal) (hk : k ∉ expected_criteria) :
    validate_analysis_data
        (.dict (dictSet es "criteria_scores" (.dict (dictSet cs k v)))) =
      .ok (true, Option.none) := by
  have hne : ∀ c ∈ expected_criteria, c ≠ k := fun c hc he => hk (he ▸ hc)
  exact @validate_accepts (dictSet es "criteria_scores" (.dict (dictSet cs k v)))
    (dictSet cs k v) obs vfc vlr vgra vpr sv {
    hcs := dictFind_dictSet_self es _ _
    hob := by
      rw [dictFind_dictSet_ne es _ _ _ (by decide)]
      exact h.hob
    hai := by
      rw [dictFind_dictSet_ne es _ _ _ (by decide)]
      exact h.hai
    hfc := by
      rw [dictFind_dictSet_ne cs k _ v (hne _ (by simp [expected_criteria]))]
      exact h.hfc
    hlr := by
      rw [dictFind_dictSet_ne cs k _ v (hne _ (by simp [expected_criteria]))]
      exact h.hlr
    hgra := by
      rw [dictFind_dictSet_ne cs k _ v (hne _ (by simp [expected_criteria]))]
      exact h.hgra
    hpr := by
      rw [dictFind_dictSet_ne cs k _ v (hne _ (by simp [expected_criteria]))]
      exact h.hpr
    hfcv := h.hfcv
    hlrv := h.hlrv
    hgrav := h.hgrav
    hprv := h.hprv
    hsc := h.hsc
    hscv := h.hscv }

/-! ## Totality domain of the validator -/

/-- Whether key `k` of payload `a`, if `a` is a dict carrying `k`, holds a
dict value (trivially true when `a` is not a dict or `k` is absent). -/
def fieldDictOk (a : PyVal) (k : String) : Bool :=
  match a with
  | .dict es =>
    match dictFind es k with
    | some v => v.isDict
    | Option.none => true
  | _ => true

/-- When `criteria_scores` and `overall_band` hold dict values (or are
absent), `validate_analysis_data` returns a result instead of raising. -/
lemma validate_total_core (a : PyVal)
    (h1 : fieldDictOk a "criteria_scores" = true)
    (h2 : fieldDictOk a "overall_band" = true) :
    ∃ r, validate_analysis_data a = .ok r := by
  cases a with
  | dict es =>
    simp only [fieldDictOk] at h1 h2
    rw [validate_analysis_data]
    cases hmiss : findMissingField es required_fields with
    | some f => exact ⟨_, rfl⟩
    | none =>
      obtain ⟨cs, hcs⟩ : ∃ cs,
          (dictFind es "criteria_scores").getD (.dict []) = .dict cs := by
        cases hfind : dictFind es "criteria_scores" with
        | none => exact ⟨[], rfl⟩
        | some v =>
          rw [hfind] at h1
          cases v <;> simp_all [PyVal.isDict]
      obtain ⟨obs, hob⟩ : ∃ obs,
          (dictFind es "overall_band").getD (.dict []) = .dict obs := by
        cases hfind : dictFind es "overall_band" with
        | none => exact ⟨[], rfl⟩
        | some v =>
          rw [hfind] at h2
          cases v <;> simp_all [PyVal.isDict]
      obtain ⟨r, hr⟩ := checkCriteriaList_dict_no_error cs expected_criteria
      cases r with
      | some m => exact ⟨(false, some m), by simp only [hcs, hr]⟩
      | none =>
        cases hsk : dictHasKey obs "score" with
        | false =>
          exact ⟨(false, some "Missing overall band score"), by
            simp only [hcs, hr, hob, pyContains, hsk]
            simp⟩
        | true =>
          obtain ⟨sv, hsv⟩ := Option.isSome_iff_exists.mp
            (dictHasKey_eq_isSome obs "score" ▸ hsk)
          cases hval : invalidScore sv with
          | true =>
            exact ⟨(false, some
                "Invalid overall band score: must be a number between 0 and 9"), by
              simp only [hcs, hr, hob, pyContains, hsk, pyGetItem, hsv, hval]
              simp⟩
          | false =>
            exact ⟨(true, Option.none), by
              simp only [hcs, hr, hob, pyContains, hsk, pyGetItem, hsv, hval]
              simp⟩
  | none => exact ⟨_, rfl⟩
  | bool b => exact ⟨_, rfl⟩
  | num q => exact ⟨_, rfl⟩
  | str s => exact ⟨_, rfl⟩
  | list xs => exact ⟨_, rfl⟩

/-! ## Session Recorder lemmas -/

lemma log_session_body_commit_fail (db : DBState) (uid : Nat) (sid : String)
    (a : PyVal) (dur : Option ℚ) (t : Option String) (st et : Option TS)
    (qa : Option PyVal) :
    (∃ e, log_session_body db true uid sid a dur t st et qa =
        .error (e, db)) ∨
      log_session_body db true uid sid a dur t st et qa =
        .ok (.failure, db) := by
  unfold log_session_body
  repeat' split
  all_goals first
    | exact .inl ⟨_, rfl⟩
    | exact .inr rfl
    | simp_all

/-- With the persistence failure injected, every call leaves the store
untouched and reports failure. -/
lemma log_session_commit_fail (db : DBState) (uid : Nat) (sid : String)
    (a : PyVal) (dur : Option ℚ) (t : Option String) (st et : Option TS)
    (qa : Option PyVal) :
    log_session db true uid sid a dur t st et qa = (.failure, db) := by
  unfold log_session
  rcases log_session_body_commit_fail db uid sid a dur t st et qa with
    ⟨e, he⟩ | he <;> rw [he]

lemma log_session_body_ok_shape (db : DBState) (cf : Bool) (uid : Nat)
    (sid : String) (a : PyVal) (dur : Option ℚ) (t : Option String)
    (st et : Option TS) (qa : Option PyVal) (i : Nat) (db' : DBState)
    (h : log_session_body db cf uid sid a dur t st et qa = .ok (.ok i, db')) :
    i = db.nextId ∧
    db'.sessions = db.sessions ++
      [{ id := db.nextId, user_id := uid, session_id_str := sid,
         duration :=
           if dur.getD (calculate_session_metrics t st et).duration == 0
           then 900
           else dur.getD (calculate_session_metrics t st et).duration,
         words_spoken := (calculate_session_metrics t st et).words_spoken }] := by
  unfold log_session_body at h
  repeat' split at h
  all_goals simp_all
  obtain ⟨h1, h2⟩ := h
  subst h2
  simp [h1]

/-- A successful call returns the fresh autoincrement id and appends
exactly one `SessionUsage` row, whose duration is the resolved duration of
analytics.py:130-132. -/
lemma log_session_ok_shape (db : DBState) (cf : Bool) (uid : Nat)
    (sid : String) (a : PyVal) (dur : Option ℚ) (t : Option String)
    (st et : Option TS) (qa : Option PyVal) (i : Nat) (db' : DBState)
    (h : log_session db cf uid sid a dur t st et qa = (.ok i, db')) :
    i = db.nextId ∧
    db'.sessions = db.sessions ++
      [{ id := db.nextId, user_id := uid, session_id_str := sid,
         duration :=
           if dur.getD (calculate_session_metrics t st et).duration == 0
           then 900
           else dur.getD (calculate_session_metrics t st et).duration,
         words_spoken := (calculate_session_metrics t st et).words_spoken }] := by
  unfold log_session at h
  cases hb : log_session_body db cf uid sid a dur t st et qa with
  | error e =>
    obtain ⟨e1, e2⟩ := e
    rw [hb] at h
    simp at h
  | ok r =>
    rw [hb] at h
    simp only at h
    subst h
    exact log_session_body_ok_shape db cf uid sid a dur t st et qa i db' hb

/-- A call on a well-formed payload with no store failure always commits
the two rows built at analytics.py:137-171; it then returns the fresh id
when the post-commit logging print at analytics.py:176 goes through, and
Python `False` when `len(questions_and_answers)` raises there — the rows
stay committed either way, a rollback after the commit being a no-op. -/
lemma log_session_good_cases (db : DBState) (uid : Nat) (sid : String)
    {es cs obs : List (String × PyVal)} {vfc vlr vgra vpr sv : PyVal}
    (h : GoodPayload es cs obs vfc vlr vgra vpr sv)
    (dur : Option ℚ) (t : Option String) (st et : Option TS)
    (qa : Option PyVal) :
    log_session db false uid sid (.dict es) dur t st et qa =
      ((match qaCount qa with
        | .ok _ => LogResult.ok db.nextId
        | .error _ => LogResult.failure),
       { sessions := db.sessions ++
           [{ id := db.nextId, user_id := uid, session_id_str := sid,
              duration :=
                if dur.getD (calculate_session_metrics t st et).duration == 0
                then 900
                else dur.getD (calculate_session_metrics t st et).duration,
              words_spoken :=
                (calculate_session_metrics t st et).words_spoken }],
         feedbacks := db.feedbacks ++
           [{ session_usage_id := db.nextId,
              band_scores :=
                .json (.dict (dictSet cs "overall_band" (.dict obs))),
              feedback_text := .json (.dict
                [("actionable_insights",
                    (dictFind es "actionable_insights").getD (.dict [])),
                 ("word_analysis",
                    (dictFind es "word_analysis").getD (.dict [])),
                 ("questions_and_answers", orEmptyList qa),
                 ("original_transcript", optStrVal t)]) }],
         nextId := db.nextId + 1 }) := by
  unfold log_session log_session_body
  rw [validate_accepts h]
  simp only [pyGetD, pyCopySet, h.hcs, h.hob, Option.getD_some,
    Bool.not_true, json_dumps]
  cases hqa : qaCount qa with
  | error e => simp [hqa]
  | ok n => simp [hqa]

/-! ## Analytics Reader lemmas -/

lemma reader_none_no_session (db : DBState) (i : Nat)
    (h : db.sessions.find? (fun s => s.id == i) = Option.none) :
    get_session_analytics_data db i = Option.none := by
  unfold get_session_analytics_data
  rw [h]

lemma reader_none_no_feedback (db : DBState) (i : Nat) (s : SessionRow)
    (hs : db.sessions.find? (fun r => r.id == i) = some s)
    (h : db.feedbacks.find? (fun f => f.session_usage_id == s.id) =
      Option.none) :
    get_session_analytics_data db i = Option.none := by
  unfold get_session_analytics_data
  simp only [hs, h]

lemma reader_none_body_error (db : DBState) (i : Nat) (s : SessionRow)
    (f : FeedbackRow) (e : PyErr)
    (hs : db.sessions.find? (fun r => r.id == i) = some s)
    (hf : db.feedbacks.find? (fun r => r.session_usage_id == s.id) = some f)
    (h : session_view_body s f = .error e) :
    get_session_analytics_data db i = Option.none := by
  unfold get_session_analytics_data
  simp only [hs, hf, h]

lemma reader_some_body_ok (db : DBState) (i : Nat) (s : SessionRow)
    (f : FeedbackRow) (view : SessionView)
    (hs : db.sessions.find? (fun r => r.id == i) = some s)
    (hf : db.feedbacks.find? (fun r => r.session_usage_id == s.id) = some f)
    (h : session_view_body s f = .ok view) :
    get_session_analytics_data db i = some view := by
  unfold get_session_analytics_data
  simp only [hs, hf, h]

/-- Both blobs deserialize to mappings: the view is rebuilt with the
defensive defaults of analytics.py:287-293. -/
lemma session_view_body_ok (s : SessionRow) (f : FeedbackRow)
    (bs fd : List (String × PyVal))
    (hbs : json_loads f.band_scores = .ok (.dict bs))
    (hfd : json_loads f.feedback_text = .ok (.dict fd)) :
    session_view_body s f = .ok
      { session_usage_id := s.id, session_id_str := s.session_id_str,
        duration := s.duration, words_spoken := s.words_spoken,
        criteria_scores := .dict
          [("fluency_coherence",
              (dictFind bs "fluency_coherence").getD (.num 0)),
           ("lexical_resource",
              (dictFind bs "lexical_resource").getD (.num 0)),
           ("grammatical_range_accuracy",
              (dictFind bs "grammatical_range_accuracy").getD (.num 0)),
           ("pronunciation", (dictFind bs "pronunciation").getD (.num 0))],
        overall_band := (dictFind bs "overall_band").getD
          (.dict [("score", .num 0), ("summary", .str "No summary available")]),
        actionable_insights :=
          (dictFind fd "actionable_insights").getD (.dict fd),
        word_analysis := (dictFind fd "word_analysis").getD (.dict []),
        questions_and_answers :=
          (dictFind fd "questions_and_answers").getD (.list []),
        original_transcript :=
          (dictFind fd "original_transcript").getD (.str "") } := by
  unfold session_view_body
  rw [hbs, hfd]
  simp [PyVal.isDict, pyGetD]

lemma session_view_body_error_band (s : SessionRow) (f : FeedbackRow)
    (e : PyErr) (h : json_loads f.band_scores = .error e) :
    session_view_body s f = .error e := by
  unfold session_view_body
  rw [h]

lemma session_view_body_error_feedback (s : SessionRow) (f : FeedbackRow)
    (v : PyVal) (e : PyErr) (hbs : json_loads f.band_scores = .ok v)
    (h : json_loads f.feedback_text = .error e) :
    session_view_body s f = .error e := by
  unfold session_view_body
  rw [hbs, h]

/-- `feedback_text` deserializes to a non-mapping: the unguarded
`feedback_data.get('word_analysis', {})` raises `AttributeError`. -/
lemma session_view_body_error_fd_not_dict (s : SessionRow) (f : FeedbackRow)
    (bv fv : PyVal) (hbs : json_loads f.band_scores = .ok bv)
    (hfd : json_loads f.feedback_text = .ok fv) (hv : fv.isDict = false) :
    session_view_body s f = .error .attributeError := by
  unfold session_view_body
  rw [hbs, hfd]
  cases fv <;> simp_all [PyVal.isDict, pyGetD]

/-- `band_scores` deserializes to a non-mapping (while `feedback_text` is
one): `band_scores.get('fluency_coherence', 0)` raises `AttributeError`. -/
lemma session_view_body_error_band_not_dict (s : SessionRow)
    (f : FeedbackRow) (bv : PyVal) (fd : List (String × PyVal))
    (hbs : json_loads f.band_scores = .ok bv)
    (hfd : json_loads f.feedback_text = .ok (.dict fd))
    (hv : bv.isDict = false) :
    session_view_body s f = .error .attributeError := by
  unfold session_view_body
  rw [hbs, hfd]
  cases bv <;> simp_all [PyVal.isDict, pyGetD]

/-! ## Metrics lemmas -/

lemma round2_zero : round2 0 = 0 := by
  norm_num [round2, roundHalfEven]

lemma metrics_duration_nonneg (t : Option String) (st et : Option TS) :
    0 ≤ (calculate_session_metrics t st et).duration := by
  unfold calculate_session_metrics
  split
  · simp
  · simp only []
    exact le_max_right _ _

lemma metrics_duration_zero_of_bad_parse (t : Option String)
    (st et : Option TS) (s : String)
    (hbad : st = some (.strBad s) ∨ et = some (.strBad s)) :
    (calculate_session_metrics t st et).duration = 0 := by
  unfold calculate_session_metrics
  split
  · rfl
  · simp only []
    have hD : (if (optTSTruthy st && optTSTruthy et) = true then
        match st, et with
        | some st', some et' =>
          match tsParse st' with
          | .error _ => (0 : ℚ)
          | .ok s' =>
            match tsParse et' with
            | .error _ => 0
            | .ok e' => e' - s'
        | _, _ => 0
      else 0) = 0 := by
      rcases hbad with rfl | rfl
      · by_cases hs : s.isEmpty
        · simp [optTSTruthy, TS.truthy, hs]
        · cases et with
          | none => simp [optTSTruthy]
          | some e =>
            cases he : e.truthy with
            | false => simp [optTSTruthy, he]
            | true => simp [optTSTruthy, TS.truthy, he, hs, tsParse]
      · by_cases hs : s.isEmpty
        · simp [optTSTruthy, TS.truthy, hs]
        · cases st with
          | none => simp [optTSTruthy]
          | some s' =>
            cases hs' : s'.truthy with
            | false => simp [optTSTruthy, hs']
            | true =>
              cases hp : tsParse s' with
              | error e =>
                simp only [hp]
                simp [optTSTruthy, TS.truthy, hs', hs]
              | ok v =>
                simp only [hp]
                simp [optTSTruthy, TS.truthy, hs', hs, tsParse]
    rw [hD]
    simp

lemma metrics_formula (t : String) (ht : t.isEmpty = false) (ts te : ℚ) :
    calculate_session_metrics (some t) (some (.dt ts)) (some (.dt te)) =
      { words_spoken := (pyWords t.toList).length,
        duration := max (te - ts) 0,
        wpm := if 0 < te - ts then
            round2 ((((pyWords t.toList).length : ℚ) / (te - ts)) * 60)
          else 0 } := by
  unfold calculate_session_metrics
  simp only [strOptTruthy, ht, Bool.not_false, Bool.false_eq_true,
    if_false, optTSTruthy, TS.truthy, Bool.and_self, if_true, tsParse,
    Option.getD_some]
  by_cases hd : 0 < te - ts
  · simp [hd]
  · simp [hd, round2_zero]

lemma find?_append_of_none {α : Type} (p : α → Bool) (l1 l2 : List α)
    (h : l1.find? p = Option.none) :
    (l1 ++ l2).find? p = l2.find? p := by
  simp [List.find?_append, h]

/-! ## Concrete example data (used by witnesses and counterexamples) -/

def goodCS : List (String × PyVal) :=
  [("fluency_coherence", .num 6), ("lexical_resource", .num 7),
   ("grammatical_range_accuracy", .num 6), ("pronunciation", .num 8)]

def goodOB : List (String × PyVal) :=
  [("score", .num 7), ("summary", .str "ok")]

def goodEntries : List (String × PyVal) :=
  [("criteria_scores", .dict goodCS), ("overall_band", .dict goodOB),
   ("actionable_insights", .dict [])]

def goodPayload : PyVal := .dict goodEntries

lemma goodPayload_good :
    GoodPayload goodEntries goodCS goodOB (.num 6) (.num 7) (.num 6)
      (.num 8) (.num 7) :=
  ⟨rfl, rfl, rfl, rfl, rfl, rfl, rfl, rfl, rfl, rfl, rfl, rfl, rfl⟩

def db0 : DBState := { sessions := [], feedbacks := [], nextId := 1 }

/-- A store state holding one session whose `band_scores` column contains
the valid JSON text `5` (which parses, but not to a mapping). -/
def badSessionRow : SessionRow :=
  { id := 1, user_id := 1, session_id_str := "session_1", duration := 900,
    words_spoken := 0 }

def badFeedbackRow : FeedbackRow :=
  { session_usage_id := 1, band_scores := .json (.num 5),
    feedback_text := .json (.dict []) }

def dbBad : DBState :=
  { sessions := [badSessionRow], feedbacks := [badFeedbackRow],
    nextId := 2 }

/-! ## Claim theorems -/

/-- C1: `log_session` writes the `SessionUsage` and its linked
`FeedbackSummary` atomically: whenever a persistence error occurs during
the combined write (the injected commit failure), the transaction is
rolled back in full — the store equals its pre-call state, so neither
record is persisted — and the caller receives the failure result
(`False`). No exception escapes: `log_session` is total, its `except`
clause converting every internal raise into the same rollback-and-fail
behaviour. -/
theorem C1_log_session_atomic (db : DBState) (uid : Nat) (sid : String)
    (a : PyVal) (dur : Option ℚ) (t : Option String) (st et : Option TS)
    (qa : Option PyVal) :
    log_session db true uid sid a dur t st et qa = (.failure, db) :=
  log_session_commit_fail db uid sid a dur t st et qa

/-- C2 counterexample: `validate_analysis_data` is not total — on a
payload whose `criteria_scores` value is the number `1`, the membership
test `'fluency_coherence' not in criteria_scores` raises `TypeError`
(argument of type 'int' is not iterable) instead of returning a pair. -/
theorem C2_cex_validate_raises_typeerror :
    validate_analysis_data
        (.dict [("criteria_scores", .num 1),
                ("overall_band", .dict [("score", .num 5)]),
                ("actionable_insights", .none)]) =
      .error .typeError := rfl

/-- C2 (amended): `validate_analysis_data` returns an `(is_valid, reason)`
pair without raising for every input whose `criteria_scores` and
`overall_band` values — when the payload is a dict carrying those keys —
are themselves dicts; arbitrary non-dict payloads and arbitrary values at
every other key are fine. (As stated the claim is false: a numeric value
at either key makes the function raise `TypeError`.) -/
theorem C2_validate_total_on_dict_fields (a : PyVal)
    (h1 : fieldDictOk a "criteria_scores" = true)
    (h2 : fieldDictOk a "overall_band" = true) :
    ∃ r, validate_analysis_data a = .ok r :=
  validate_total_core a h1 h2

/-- C2 witness: the amended totality theorem applied to a concrete
payload. -/
theorem C2_witness :
    ∃ r, validate_analysis_data goodPayload = .ok r :=
  C2_validate_total_on_dict_fields goodPayload rfl rfl

/-- C3 counterexample: a call passing an explicit duration of `-1` seconds
succeeds and stores that negative duration unchanged — the stored
`SessionUsage.duration` is not strictly positive for every successful
call. -/
theorem C3_cex_negative_duration_stored :
    (log_session db0 false 1 "session_1" goodPayload (some (-1))
        Option.none Option.none Option.none Option.none).1 = .ok 1 ∧
    ((log_session db0 false 1 "session_1" goodPayload (some (-1))
        Option.none Option.none Option.none Option.none).2.sessions.map
      (fun r => r.duration)) = [-1] ∧
    ¬ (0 : ℚ) < -1 :=
  ⟨rfl, rfl, by norm_num⟩

/-- C3 (amended): for every successful `log_session` call whose explicit
duration argument, when given, is nonnegative, the stored duration is
strictly positive; and with no explicit duration argument the stored
duration is always strictly positive, equal to exactly 900 whenever no
duration is derivable from the transcript timestamps. (As stated the claim
is false: an explicit negative duration is stored unchanged, since the
zero-to-900 substitution only tests `== 0`.) -/
theorem C3_duration_positive (db : DBState) (uid : Nat) (sid : String)
    (a : PyVal) (t : Option String) (st et : Option TS) (qa : Option PyVal) :
    (∀ d i db', 0 ≤ d →
      log_session db false uid sid a (some d) t st et qa = (.ok i, db') →
      ∃ row, db'.sessions = db.sessions ++ [row] ∧ 0 < row.duration) ∧
    (∀ i db',
      log_session db false uid sid a Option.none t st et qa = (.ok i, db') →
      ∃ row, db'.sessions = db.sessions ++ [row] ∧ 0 < row.duration ∧
        ((calculate_session_metrics t st et).duration = 0 →
          row.duration = 900)) := by
  constructor
  · intro d i db' hd h
    obtain ⟨hi, hsess⟩ :=
      log_session_ok_shape db false uid sid a (some d) t st et qa i db' h
    refine ⟨_, hsess, ?_⟩
    simp only [Option.getD_some]
    by_cases hz : d = 0
    · subst hz
      norm_num
    · rw [if_neg (by simpa using hz)]
      exact lt_of_le_of_ne hd (Ne.symm hz)
  · intro i db' h
    obtain ⟨hi, hsess⟩ :=
      log_session_ok_shape db false uid sid a Option.none t st et qa i db' h
    refine ⟨_, hsess, ?_, ?_⟩
    · simp only [Option.getD_none]
      by_cases hz : (calculate_session_metrics t st et).duration = 0
      · rw [if_pos (by simpa using hz)]
        norm_num
      · rw [if_neg (by simpa using hz)]
        exact lt_of_le_of_ne (metrics_duration_nonneg t st et) (Ne.symm hz)
    · intro hz
      simp only [Option.getD_none]
      rw [if_pos (by simpa using hz)]

/-- C3 witness: the amended theorem applied to a concrete successful call
(no explicit duration, no timestamps): the stored duration is 900. -/
theorem C3_witness :
    ∃ row, ((log_session db0 false 1 "session_1" goodPayload Option.none
        Option.none Option.none Option.none Option.none).2).sessions =
      db0.sessions ++ [row] ∧ 0 < row.duration ∧
      ((calculate_session_metrics Option.none Option.none Option.none).duration = 0 →
        row.duration = 900) :=
  (C3_duration_positive db0 1 "session_1" goodPayload Option.none
      Option.none Option.none Option.none).2 1 _ rfl

/-- C10: when a successful call passes an explicit duration argument equal
to 0, the stored `SessionUsage.duration` is 900, not 0 — the zero-to-900
substitution at analytics.py:131 tests the resolved duration after the
explicit argument is chosen, so an explicit zero does not win over the
fallback. -/
theorem C10_explicit_zero_becomes_900 (db : DBState) (uid : Nat)
    (sid : String) (a : PyVal) (t : Option String) (st et : Option TS)
    (qa : Option PyVal) (i : Nat) (db' : DBState)
    (h : log_session db false uid sid a (some 0) t st et qa = (.ok i, db')) :
    ∃ row, db'.sessions = db.sessions ++ [row] ∧ row.duration = 900 := by
  obtain ⟨hi, hsess⟩ :=
    log_session_ok_shape db false uid sid a (some 0) t st et qa i db' h
  exact ⟨_, hsess, by simp⟩

/-- C10 witness: the theorem applied to a concrete call with duration 0:
the stored row has duration 900. -/
theorem C10_witness :
    ∃ row, ((log_session db0 false 1 "session_1" goodPayload (some 0)
        Option.none Option.none Option.none Option.none).2).sessions =
      db0.sessions ++ [row] ∧ row.duration = 900 :=
  C10_explicit_zero_becomes_900 db0 1 "session_1" goodPayload Option.none
    Option.none Option.none Option.none 1 _ rfl

def extraCriteria : List (String × PyVal) :=
  goodCS ++ [("extra_criterion", .num 7)]

def extraPayload : PyVal :=
  .dict [("criteria_scores", .dict extraCriteria),
         ("overall_band", .dict goodOB), ("actionable_insights", .dict [])]

/-- C4 counterexample: a payload whose `criteria_scores` carries a fifth
key beyond the four named criteria is accepted, so the validator does not
require *exactly* the four criteria — it never rejects extra keys. -/
theorem C4_cex_extra_key_accepted :
    validate_analysis_data extraPayload = .ok (true, Option.none) ∧
    dictHasKey extraCriteria "extra_criterion" = true ∧
    "extra_criterion" ∉ expected_criteria :=
  ⟨rfl, rfl, by decide⟩

/-- C4 (amended): `criteria_scores` must contain *at least* the four named
criteria — omitting any one of them is rejected with the message naming
it — but keys beyond the four are not rejected: adding an arbitrary extra
entry to an otherwise valid payload leaves it accepted. -/
theorem C4_four_criteria_required {es cs obs : List (String × PyVal)}
    {vfc vlr vgra vpr sv : PyVal}
    (h : GoodPayload es cs obs vfc vlr vgra vpr sv) :
    (∀ c ∈ expected_criteria,
      validate_analysis_data
          (.dict (dictSet es "criteria_scores" (.dict (removeKey cs c)))) =
        .ok (false, some ("Missing criterion score: " ++ c))) ∧
    (∀ k v, k ∉ expected_criteria →
      validate_analysis_data
          (.dict (dictSet es "criteria_scores" (.dict (dictSet cs k v)))) =
        .ok (true, Option.none)) :=
  ⟨fun c hc => validate_missing_criterion h c hc,
   fun k v hk => validate_accepts_extra_key h k v hk⟩

/-- C4 witness: the amended theorem applied to the concrete payload —
dropping `pronunciation` is rejected with its message, while adding
`extra_criterion` keeps the payload accepted. -/
theorem C4_witness :
    validate_analysis_data
        (.dict (dictSet goodEntries "criteria_scores"
          (.dict (removeKey goodCS "pronunciation")))) =
      .ok (false, some "Missing criterion score: pronunciation") ∧
    validate_analysis_data
        (.dict (dictSet goodEntries "criteria_scores"
          (.dict (dictSet goodCS "extra_criterion" (.num 7))))) =
      .ok (true, Option.none) :=
  ⟨(C4_four_criteria_required goodPayload_good).1 "pronunciation"
      (by decide),
   (C4_four_criteria_required goodPayload_good).2 "extra_criterion"
      (.num 7) (by decide)⟩

/-- C5: every payload carrying the three required keys, the four criteria
with numeric scores in [0,9] and a numeric overall score in [0,9] is
accepted as `(True, None)`; removing any required key yields the rejection
naming it; pushing any criterion score or the overall score outside [0,9]
yields the rejection naming the field. -/
theorem C5_validator_contract {es cs obs : List (String × PyVal)}
    {vfc vlr vgra vpr sv : PyVal}
    (h : GoodPayload es cs obs vfc vlr vgra vpr sv) :
    validate_analysis_data (.dict es) = .ok (true, Option.none) ∧
    (∀ f ∈ required_fields,
      validate_analysis_data (.dict (removeKey es f)) =
        .ok (false, some ("Missing required field: " ++ f))) ∧
    (∀ c ∈ expected_criteria, ∀ q : ℚ, q < 0 ∨ 9 < q →
      validate_analysis_data
          (.dict (dictSet es "criteria_scores" (.dict (dictSet cs c (.num q))))) =
        .ok (false, some ("Invalid score for " ++ c ++
          ": must be a number between 0 and 9"))) ∧
    (∀ q : ℚ, q < 0 ∨ 9 < q →
      validate_analysis_data
          (.dict (dictSet es "overall_band" (.dict (dictSet obs "score" (.num q))))) =
        .ok (false, some
          "Invalid overall band score: must be a number between 0 and 9")) :=
  ⟨validate_accepts h,
   fun f hf => validate_missing_required h f hf,
   fun c hc q hq => validate_criterion_out_of_range h c hc q hq,
   fun q hq => validate_overall_out_of_range h q hq⟩

/-- C5 witness: the contract applied to a concrete payload — accepted as
given; rejected with the field-naming reason when `actionable_insights`
is removed, when `pronunciation` is pushed to 10, and when the overall
score is pushed to -1. -/
theorem C5_witness :
    validate_analysis_data goodPayload = .ok (true, Option.none) ∧
    validate_analysis_data (.dict (removeKey goodEntries "actionable_insights")) =
      .ok (false, some "Missing required field: actionable_insights") ∧
    validate_analysis_data
        (.dict (dictSet goodEntries "criteria_scores"
          (.dict (dictSet goodCS "pronunciation" (.num 10))))) =
      .ok (false, some
        "Invalid score for pronunciation: must be a number between 0 and 9") ∧
    validate_analysis_data
        (.dict (dictSet goodEntries "overall_band"
          (.dict (dictSet goodOB "score" (.num (-1)))))) =
      .ok (false, some
        "Invalid overall band score: must be a number between 0 and 9") := by
  obtain ⟨h1, h2, h3, h4⟩ := C5_validator_contract goodPayload_good
  exact ⟨h1, h2 "actionable_insights" (by decide),
    h3 "pronunciation" (by decide) 10 (by norm_num),
    h4 (-1) (by norm_num)⟩

/-- C7: `calculate_session_metrics` is pure and total by construction (a
total function of its arguments, no store access); a missing or empty
transcript yields the all-zero metrics regardless of the timestamps; and
whenever either timestamp is a string `datetime.fromisoformat` rejects,
the raise is swallowed and the duration falls back to 0. -/
theorem C7_metrics_total_and_fallbacks :
    (∀ st et, calculate_session_metrics Option.none st et =
      { words_spoken := 0, duration := 0, wpm := 0 }) ∧
    (∀ st et, calculate_session_metrics (some "") st et =
      { words_spoken := 0, duration := 0, wpm := 0 }) ∧
    (∀ t st et s, (st = some (.strBad s) ∨ et = some (.strBad s)) →
      (calculate_session_metrics t st et).duration = 0) :=
  ⟨fun _st _et => rfl, fun _st _et => rfl,
   fun t st et s hbad => metrics_duration_zero_of_bad_parse t st et s hbad⟩

/-- C7 witness: the parse-failure clause applied to a concrete malformed
start timestamp. -/
theorem C7_witness :
    (calculate_session_metrics (some "hi there")
        (some (.strBad "not-a-timestamp")) (some (.dt 60))).duration = 0 :=
  C7_metrics_total_and_fallbacks.2.2 (some "hi there")
    (some (.strBad "not-a-timestamp")) (some (.dt 60)) "not-a-timestamp"
    (Or.inl rfl)

/-- C8: for every non-empty transcript with both timestamps given,
`words_spoken` is the count of whitespace-delimited tokens, the duration
is end minus start clamped to at least 0, and the wpm is
`words / duration * 60` rounded to 2 decimal places when the duration is
positive and 0 otherwise; in particular the 7-word transcript with
`end = start + 60` yields `{words_spoken: 7, duration: 60, wpm: 7.0}`. -/
theorem C8_metrics_formulas :
    (∀ t : String, t.isEmpty = false → ∀ ts te : ℚ,
      calculate_session_metrics (some t) (some (.dt ts)) (some (.dt te)) =
        { words_spoken := (pyWords t.toList).length,
          duration := max (te - ts) 0,
          wpm := if 0 < te - ts then
              round2 ((((pyWords t.toList).length : ℚ) / (te - ts)) * 60)
            else 0 }) ∧
    (∀ T : ℚ,
      calculate_session_metrics (some "I am very happy to speak today")
          (some (.dt T)) (some (.dt (T + 60))) =
        { words_spoken := 7, duration := 60, wpm := 7 }) := by
  refine ⟨fun t ht ts te => metrics_formula t ht ts te, fun T => ?_⟩
  rw [metrics_formula "I am very happy to speak today" rfl T (T + 60)]
  have hw : (pyWords "I am very happy to speak today".toList).length = 7 := rfl
  have hd : T + 60 - T = 60 := by ring
  rw [hw, hd]
  norm_num [round2, roundHalfEven]

/-- C8 witness: the general formula applied to a concrete 2-word
transcript over 30 seconds: `{words_spoken: 2, duration: 30, wpm: 4.0}`. -/
theorem C8_witness :
    calculate_session_metrics (some "hello world") (some (.dt 0))
        (some (.dt 30)) =
      { words_spoken := 2, duration := 30, wpm := 4 } := by
  rw [C8_metrics_formulas.1 "hello world" rfl 0 30]
  have hw : (pyWords "hello world".toList).length = 2 := rfl
  rw [hw]
  norm_num [round2, roundHalfEven]

/-- C9 counterexample: a store row whose `band_scores` column holds the
valid JSON text `5` — the session exists, its feedback exists, and both
blobs deserialize — yet the reader returns not-found, because the
attribute lookup `band_scores.get(...)` on the parsed non-mapping raises
inside the same `try`. So "not found" is not returned *exactly* when no
record/feedback exists or deserialization fails. -/
theorem C9_cex_parsed_non_mapping :
    dbBad.sessions.find? (fun r => r.id == 1) = some badSessionRow ∧
    dbBad.feedbacks.find? (fun r => r.session_usage_id == 1) =
      some badFeedbackRow ∧
    json_loads badFeedbackRow.band_scores = .ok (.num 5) ∧
    json_loads badFeedbackRow.feedback_text = .ok (.dict []) ∧
    get_session_analytics_data dbBad 1 = Option.none :=
  ⟨rfl, rfl, rfl, rfl, rfl⟩

/-- C9 (amended): `get_session_analytics` reports 404 exactly when the
reader yields nothing, and the reader yields nothing exactly when no
`SessionUsage` row exists, no linked feedback row exists, deserializing
either stored blob raises, or a deserialized blob is not a mapping (the
attribute lookups on it raise, caught by the same handler); otherwise it
returns the reconstructed view in which each criterion missing from the
stored band-scores defaults to 0 and a missing overall band defaults to
`{score: 0, summary: "No summary available"}` — and no deserialization
failure ever propagates as a crash, the reader being total. -/
theorem C9_reader_characterization (db : DBState) (i : Nat) :
    (get_session_analytics db i = .notFound ↔
      get_session_analytics_data db i = Option.none) ∧
    (db.sessions.find? (fun r => r.id == i) = Option.none →
      get_session_analytics_data db i = Option.none) ∧
    (∀ s, db.sessions.find? (fun r => r.id == i) = some s →
      db.feedbacks.find? (fun f => f.session_usage_id == s.id) = Option.none →
      get_session_analytics_data db i = Option.none) ∧
    (∀ s f e, db.sessions.find? (fun r => r.id == i) = some s →
      db.feedbacks.find? (fun r => r.session_usage_id == s.id) = some f →
      json_loads f.band_scores = .error e →
      get_session_analytics_data db i = Option.none) ∧
    (∀ s f v e, db.sessions.find? (fun r => r.id == i) = some s →
      db.feedbacks.find? (fun r => r.session_usage_id == s.id) = some f →
      json_loads f.band_scores = .ok v →
      json_loads f.feedback_text = .error e →
      get_session_analytics_data db i = Option.none) ∧
    (∀ s f bv fv, db.sessions.find? (fun r => r.id == i) = some s →
      db.feedbacks.find? (fun r => r.session_usage_id == s.id) = some f →
      json_loads f.band_scores = .ok bv →
      json_loads f.feedback_text = .ok fv → fv.isDict = false →
      get_session_analytics_data db i = Option.none) ∧
    (∀ s f bv fd, db.sessions.find? (fun r => r.id == i) = some s →
      db.feedbacks.find? (fun r => r.session_usage_id == s.id) = some f →
      json_loads f.band_scores = .ok bv →
      json_loads f.feedback_text = .ok (.dict fd) → bv.isDict = false →
      get_session_analytics_data db i = Option.none) ∧
    (∀ s f bs fd, db.sessions.find? (fun r => r.id == i) = some s →
      db.feedbacks.find? (fun r => r.session_usage_id == s.id) = some f →
      json_loads f.band_scores = .ok (.dict bs) →
      json_loads f.feedback_text = .ok (.dict fd) →
      get_session_analytics_data db i = some
        { session_usage_id := s.id, session_id_str := s.session_id_str,
          duration := s.duration, words_spoken := s.words_spoken,
          criteria_scores := .dict
            [("fluency_coherence",
                (dictFind bs "fluency_coherence").getD (.num 0)),
             ("lexical_resource",
                (dictFind bs "lexical_resource").getD (.num 0)),
             ("grammatical_range_accuracy",
                (dictFind bs "grammatical_range_accuracy").getD (.num 0)),
             ("pronunciation", (dictFind bs "pronunciation").getD (.num 0))],
          overall_band := (dictFind bs "overall_band").getD
            (.dict [("score", .num 0),
                    ("summary", .str "No summary available")]),
          actionable_insights :=
            (dictFind fd "actionable_insights").getD (.dict fd),
          word_analysis := (dictFind fd "word_analysis").getD (.dict []),
          questions_and_answers :=
            (dictFind fd "questions_and_answers").getD (.list []),
          original_transcript :=
            (dictFind fd "original_transcript").getD (.str "") }) := by
  refine ⟨?_, fun h => reader_none_no_session db i h,
    fun s hs hf => reader_none_no_feedback db i s hs hf,
    fun s f e hs hf hb =>
      reader_none_body_error db i s f e hs hf
        (session_view_body_error_band s f e hb),
    fun s f v e hs hf hb hd =>
      reader_none_body_error db i s f e hs hf
        (session_view_body_error_feedback s f v e hb hd),
    fun s f bv fv hs hf hb hd hv =>
      reader_none_body_error db i s f _ hs hf
        (session_view_body_error_fd_not_dict s f bv fv hb hd hv),
    fun s f bv fd hs hf hb hd hv =>
      reader_none_body_error db i s f _ hs hf
        (session_view_body_error_band_not_dict s f bv fd hb hd hv),
    fun s f bs fd hs hf hb hd =>
      reader_some_body_ok db i s f _ hs hf
        (session_view_body_ok s f bs fd hb hd)⟩
  unfold get_session_analytics
  cases h : get_session_analytics_data db i <;> simp [h]

/-- C9 witness: the not-found clause applied to an empty store. -/
theorem C9_witness : get_session_analytics_data db0 5 = Option.none :=
  (C9_reader_characterization db0 5).2.1 rfl

/-- Reading back the freshly appended pair: when no existing row carries
the fresh id, the reader finds exactly the new rows and rebuilds the view
from their blobs. -/
lemma reader_after_append (db : DBState) (row : SessionRow)
    (fb : FeedbackRow) (bs fd : List (String × PyVal))
    (hid : row.id = db.nextId) (hfid : fb.session_usage_id = db.nextId)
    (hbs : fb.band_scores = .json (.dict bs))
    (hfd : fb.feedback_text = .json (.dict fd))
    (hfs : ∀ r ∈ db.sessions, r.id ≠ db.nextId)
    (hff : ∀ r ∈ db.feedbacks, r.session_usage_id ≠ db.nextId) :
    get_session_analytics_data
        { sessions := db.sessions ++ [row],
          feedbacks := db.feedbacks ++ [fb], nextId := db.nextId + 1 }
        db.nextId = some
      { session_usage_id := row.id, session_id_str := row.session_id_str,
        duration := row.duration, words_spoken := row.words_spoken,
        criteria_scores := .dict
          [("fluency_coherence",
              (dictFind bs "fluency_coherence").getD (.num 0)),
           ("lexical_resource",
              (dictFind bs "lexical_resource").getD (.num 0)),
           ("grammatical_range_accuracy",
              (dictFind bs "grammatical_range_accuracy").getD (.num 0)),
           ("pronunciation", (dictFind bs "pronunciation").getD (.num 0))],
        overall_band := (dictFind bs "overall_band").getD
          (.dict [("score", .num 0), ("summary", .str "No summary available")]),
        actionable_insights :=
          (dictFind fd "actionable_insights").getD (.dict fd),
        word_analysis := (dictFind fd "word_analysis").getD (.dict []),
        questions_and_answers :=
          (dictFind fd "questions_and_answers").getD (.list []),
        original_transcript :=
          (dictFind fd "original_transcript").getD (.str "") } := by
  refine reader_some_body_ok _ _ row fb _ ?_ ?_
    (session_view_body_ok row fb bs fd (by rw [hbs]; rfl)
      (by rw [hfd]; rfl))
  · simp only []
    rw [find?_append_of_none _ db.sessions _
      (List.find?_eq_none.mpr (fun r hr => by simpa using hfs r hr))]
    simp [List.find?, hid]
  · simp only []
    rw [find?_append_of_none _ db.feedbacks _
      (List.find?_eq_none.mpr (fun r hr => by simpa [hid] using hff r hr))]
    simp [List.find?, hid, hfid]

/-- C6: round-trip — for every well-formed analysis payload, whenever
`log_session` persists it successfully and `get_session_analytics_data`
is then called with the returned `SessionUsage` identifier, the view's
four criteria scores and overall band are exactly the values supplied in
the payload. The store is assumed consistent with its autoincrement
counter: no existing row already carries the fresh id. -/
theorem C6_round_trip {es cs obs : List (String × PyVal)}
    {vfc vlr vgra vpr sv : PyVal} (db : DBState) (uid : Nat) (sid : String)
    (dur : Option ℚ) (t : Option String) (st et : Option TS)
    (qa : Option PyVal) (i : Nat) (db' : DBState)
    (h : GoodPayload es cs obs vfc vlr vgra vpr sv)
    (hfs : ∀ r ∈ db.sessions, r.id ≠ db.nextId)
    (hff : ∀ r ∈ db.feedbacks, r.session_usage_id ≠ db.nextId)
    (hsucc : log_session db false uid sid (.dict es) dur t st et qa =
      (.ok i, db')) :
    ∃ view,
      get_session_analytics_data db' i = some view ∧
      view.criteria_scores = .dict
        [("fluency_coherence", vfc), ("lexical_resource", vlr),
         ("grammatical_range_accuracy", vgra), ("pronunciation", vpr)] ∧
      view.overall_band = .dict obs := by
  rw [log_session_good_cases db uid sid h dur t st et qa] at hsucc
  cases hqa : qaCount qa with
  | error e =>
    simp only [hqa] at hsucc
    simp at hsucc
  | ok n =>
  simp only [hqa, Prod.mk.injEq, LogResult.ok.injEq] at hsucc
  obtain ⟨hi, hdb⟩ := hsucc
  subst hi
  subst hdb
  have hread := reader_after_append db
    { id := db.nextId, user_id := uid, session_id_str := sid,
      duration :=
        if dur.getD (calculate_session_metrics t st et).duration == 0
        then 900
        else dur.getD (calculate_session_metrics t st et).duration,
      words_spoken := (calculate_session_metrics t st et).words_spoken }
    { session_usage_id := db.nextId,
      band_scores := .json (.dict (dictSet cs "overall_band" (.dict obs))),
      feedback_text := .json (.dict
        [("actionable_insights",
            (dictFind es "actionable_insights").getD (.dict [])),
         ("word_analysis", (dictFind es "word_analysis").getD (.dict [])),
         ("questions_and_answers", orEmptyList qa),
         ("original_transcript", optStrVal t)]) }
    (dictSet cs "overall_band" (.dict obs)) _
    rfl rfl rfl rfl hfs hff
  refine ⟨_, hread, ?_, ?_⟩
  · simp only []
    rw [dictFind_dictSet_ne cs _ _ _ (by decide), h.hfc,
      dictFind_dictSet_ne cs _ _ _ (by decide), h.hlr,
      dictFind_dictSet_ne cs _ _ _ (by decide), h.hgra,
      dictFind_dictSet_ne cs _ _ _ (by decide), h.hpr]
    rfl
  · simp only []
    rw [dictFind_dictSet_self]
    rfl

/-- C6 witness: the round-trip theorem applied to a concrete successful
call over the empty store. -/
theorem C6_witness :
    ∃ view,
      get_session_analytics_data
          ((log_session db0 false 1 "session_1" goodPayload Option.none
            Option.none Option.none Option.none Option.none).2) 1 =
        some view ∧
      view.criteria_scores = .dict
        [("fluency_coherence", .num 6), ("lexical_resource", .num 7),
         ("grammatical_range_accuracy", .num 6),
         ("pronunciation", .num 8)] ∧
      view.overall_band = .dict goodOB :=
  C6_round_trip db0 1 "session_1" Option.none Option.none Option.none
    Option.none Option.none 1 _ goodPayload_good (by simp [db0])
    (by simp [db0]) rfl
